import Mathlib

/-!
Verification of `.evergreen/scripts/generate_config.py`.

The Python script builds Evergreen CI build-variant records from fixed
constant tables.  We embed it shallowly:

* Python `dict[str, str]` becomes an insertion-ordered association list
  `List (String × String)`; item assignment (`d[k] = v`) replaces the value
  in place when the key exists and appends otherwise (`dictSet`), and
  `d.update(m)` folds `dictSet` over `m` (`dictUpdate`), exactly Python's
  ordered-dict semantics.
* Functions that can `raise` (or hit a `KeyError` / `TypeError`) return
  `Except String _`.
* `itertools.cycle(l)` is the stream whose `i`-th element is
  `l[i % len(l)]` when `l` is non-empty and which is exhausted immediately
  when `l` is empty (`cycleNth`); `next(it, default)` is `Option.getD`;
  `zip_longest(*ls)` yields `max (map length ls)` tuples, so the
  generator `zip_cycle` materialises to `zipLongestLen` many steps.
-/

namespace GenerateConfig

/-- Python `str.replace(pat, rep)` restricted to the single-character
patterns this script uses (`.replace(" ", "-")`, `.replace(".", "")`):
replace every occurrence of the character `pat` by the string `rep`. -/
def replaceChar (s : String) (pat : Char) (rep : List Char) : String :=
  ⟨s.data.flatMap (fun c => if c = pat then rep else [c])⟩

/-- Python `str.lower()` on the ASCII strings this script uses: lower-case
every character. -/
def strLower (s : String) : String :=
  ⟨s.data.map Char.toLower⟩

/-- Python `str.startswith(pre)`. -/
def strStartsWith (s pre : String) : Bool :=
  pre.data.isPrefixOf s.data

/-- Python `d[k] = v` on an insertion-ordered dict: replace the value of the
first matching key in place, else append the pair at the end. -/
def dictSet : List (String × String) → String → String → List (String × String)
  | [], k, v => [(k, v)]
  | (k', v') :: rest, k, v =>
    if k' = k then (k, v) :: rest else (k', v') :: dictSet rest k v

/-- Python `d.update(m)`: apply `dictSet` for each pair of `m` in order. -/
def dictUpdate (d m : List (String × String)) : List (String × String) :=
  m.foldl (fun acc kv => dictSet acc kv.1 kv.2) d

/-- Python `d[k]` / `k in d`: first binding of `k`, if any. -/
def dictFind (d : List (String × String)) (k : String) : Option String :=
  match d with
  | [] => none
  | (k', v) :: rest => if k' = k then some v else dictFind rest k

/-- Source `ALL_VERSIONS` (generate_config.py line 25). -/
def ALL_VERSIONS : List String := ["4.0", "4.4", "5.0", "6.0", "7.0", "8.0", "rapid", "latest"]

/-- Source `CPYTHONS` (line 26). -/
def CPYTHONS : List String := ["3.9", "3.10", "3.11", "3.12", "3.13"]

/-- Source `PYPYS` (line 27). -/
def PYPYS : List String := ["pypy3.9", "pypy3.10"]

/-- Source `ALL_PYTHONS = CPYTHONS + PYPYS` (line 28). -/
def ALL_PYTHONS : List String := CPYTHONS ++ PYPYS

/-- Source `MIN_MAX_PYTHON = [CPYTHONS[0], CPYTHONS[-1]]` (line 29); the lists are
non-empty literals, so `headD`/`getLastD` never fall back to their default. -/
def MIN_MAX_PYTHON : List String := [CPYTHONS.headD "", CPYTHONS.getLastD ""]

/-- Source `BATCHTIME_WEEK` (line 30). -/
def BATCHTIME_WEEK : Nat := 10080

/-- Source `AUTH_SSLS` (line 31). -/
def AUTH_SSLS : List (String × String) :=
  [("auth", "ssl"), ("noauth", "ssl"), ("noauth", "nossl")]

/-- Source `TOPOLOGIES` (line 32). -/
def TOPOLOGIES : List String := ["standalone", "replica_set", "sharded_cluster"]

/-- Source `SYNCS` (line 33). -/
def SYNCS : List String := ["sync", "async"]

/-- Source `DISPLAY_LOOKUP` (lines 34-39): outer key is the lowercased axis name,
inner dict maps an axis value to its display token. -/
def DISPLAY_LOOKUP : List (String × List (String × String)) :=
  [("ssl", [("ssl", "SSL"), ("nossl", "NoSSL")]),
   ("auth", [("auth", "Auth"), ("noauth", "NoAuth")]),
   ("test_suites", [("default", "Sync"), ("default_async", "Async")]),
   ("coverage", [("coverage", "cov")])]

/-- Lookup in the outer `DISPLAY_LOOKUP` table. -/
def displayLookupFind (k : String) : Option (List (String × String)) :=
  match DISPLAY_LOOKUP.find? (fun p => p.1 = k) with
  | some p => some p.2
  | none => none

/-- The `Host` dataclass (lines 43-48). -/
structure Host where
  name : String
  run_on : String
  display_name : String
  expansions : List (String × String)
deriving Repr, DecidableEq

/-- Source `_macos_expansions` (lines 51-53). -/
def _macos_expansions : List (String × String) := [("SKIP_CSOT_TESTS", "true")]

/-- The `HOSTS` registry (lines 40, 55-59), an insertion-ordered dict. -/
def HOSTS : List (String × Host) :=
  [("rhel8", ⟨"rhel8", "rhel87-small", "RHEL8", []⟩),
   ("win64", ⟨"win64", "windows-64-vsMulti-small", "Win64", _macos_expansions⟩),
   ("win32", ⟨"win32", "windows-64-vsMulti-small", "Win32", _macos_expansions⟩),
   ("macos", ⟨"macos", "macos-14", "macOS", _macos_expansions⟩),
   ("macos-arm64", ⟨"macos-arm64", "macos-14-arm64", "macOS Arm64", _macos_expansions⟩)]

/-- Python `HOSTS[host]`: lookup in the registry, `KeyError` when absent. -/
def hostsFind (host : String) : Option Host :=
  match HOSTS.find? (fun p => p.1 = host) with
  | some p => some p.2
  | none => none

/-- Source `get_python_binary` (lines 99-115).  The trailing `raise ValueError` is the
`Except.error` arm. -/
def get_python_binary (python host : String) : Except String String :=
  if host = "win64" ∨ host = "win32" then
    let base := if host = "win32" then "C:/python/32" else "C:/python"
    let python := replaceChar python '.' []
    Except.ok (base ++ "/Python" ++ python ++ "/python.exe")
  else if host = "rhel8" then
    Except.ok ("/opt/python/" ++ python ++ "/bin/python3")
  else if host = "macos" ∨ host = "macos-arm64" then
    Except.ok ("/Library/Frameworks/Python.Framework/Versions/" ++ python ++ "/bin/python3")
  else
    Except.error ("no match found for python " ++ python ++ " on " ++ host)

/-- One iteration of the `get_display_name` loop body (lines 121-133):
format the token for one keyword binding, or fail. -/
def displayToken (key value : String) : Except String String :=
  if key = "version" then
    Except.ok (if value = "rapid" ∨ value = "latest" then value else "v" ++ value)
  else if key = "python" then
    Except.ok (if strStartsWith value "pypy" then value else "py" ++ value)
  else
    match displayLookupFind (strLower key) with
    | some tbl =>
      match dictFind tbl value with
      | some n => Except.ok n
      | none => Except.error ("KeyError: " ++ value)
    | none => Except.error ("Missing display handling for " ++ key)

/-- Function `get_display_name(base, host, **kwargs)` (lines 118-134).  `kwargs` is the
ordered list of keyword bindings; Python guarantees its keys are distinct and
iteration follows the caller-supplied order. -/
def get_display_name (base host : String) (kwargs : List (String × String)) :
    Except String String :=
  match hostsFind host with
  | none => Except.error ("KeyError: " ++ host)
  | some hostRec =>
    kwargs.foldlM
      (fun acc kv =>
        Except.bind (displayToken kv.1 kv.2) (fun n => Except.ok (acc ++ " " ++ n)))
      (base ++ " " ++ hostRec.display_name)

/-- Models the Python call protocol for `get_display_name(*args)`: the def
accepts exactly two positional parameters (`base`, `host`) plus keyword-only
`**kwargs`, so any other number of positional arguments raises `TypeError`
before the body runs.  `create_ocsp_variants` (lines 170, 185) calls it with
four positional arguments. -/
def call_get_display_name (args : List String) (kwargs : List (String × String)) :
    Except String String :=
  match args with
  | [base, host] => get_display_name base host kwargs
  | _ =>
    Except.error "TypeError: get_display_name() takes 2 positional arguments but 4 were given"

/-- The `i`-th element yielded by `itertools.cycle(l)`: `l[i % len(l)]` for
non-empty `l`; an exhausted iterator (so `none`) when `l` is empty. -/
def cycleNth (l : List α) (i : Nat) : Option α :=
  if h : l.length = 0 then none
  else some (l.get ⟨i % l.length, Nat.mod_lt i (Nat.pos_of_ne_zero h)⟩)

/-- Number of tuples `zip_longest(*ls)` yields: the longest input's length. -/
def zipLongestLen (ls : List Nat) : Nat := ls.foldr max 0

/-- Generator `zip_cycle(*iterables, empty_default)` (lines 137-141), materialised: the
generator runs one step per `zip_longest` tuple, and at step `i` takes
`next(cycle(l), empty_default)` from each input `l`, i.e. the `i`-th element
of `cycle(l)` or the default when `l` is empty. -/
def zip_cycle (inputs : List (List α)) (empty_default : α) : List (List α) :=
  (List.range (zipLongestLen (inputs.map List.length))).map
    (fun i => inputs.map (fun l => (cycleNth l i).getD empty_default))

/-- Heterogeneous two-list instance of `zip_cycle`, as used with `empty_default`
left at `None`; the per-slot defaults play the role of `None` and are never
consulted at the call sites (both inputs are non-empty literals). -/
def zip_cycle2 (as : List α) (bs : List β) (da : α) (db : β) : List (α × β) :=
  (List.range (zipLongestLen [as.length, bs.length])).map
    (fun i => ((cycleNth as i).getD da, (cycleNth bs i).getD db))

/-- Heterogeneous three-list instance of `zip_cycle`, same conventions as
`zip_cycle2`. -/
def zip_cycle3 (as : List α) (bs : List β) (cs : List γ) (da : α) (db : β) (dc : γ) :
    List (α × β × γ) :=
  (List.range (zipLongestLen [as.length, bs.length, cs.length])).map
    (fun i => ((cycleNth as i).getD da, (cycleNth bs i).getD db, (cycleNth cs i).getD dc))

/-- Python `itertools.product(as, bs)`: the cross product, last axis fastest. -/
def listProd (as : List α) (bs : List β) : List (α × β) :=
  as.flatMap (fun a => bs.map (fun b => (a, b)))

/-- The shrub `BuildVariant` record restricted to the fields this script sets.
`tasks` holds the `EvgTaskRef` names; `expansions = none` models the field
being absent (Python `None`), as opposed to an empty mapping. -/
structure BuildVariant where
  name : String
  display_name : String
  tasks : List String
  expansions : Option (List (String × String))
  run_on : List String
  batchtime : Option Nat
  tags : Option (List String)
deriving Repr, DecidableEq

/-- Statement `host = host or "rhel8"` (line 80): Python truthiness makes both `None`
and the empty string fall back to `"rhel8"`. -/
def resolveHostId (host : Option String) : String :=
  match host with
  | some s => if s = "" then "rhel8" else s
  | none => "rhel8"

/-- Statement `if python: expansions["PYTHON_BINARY"] = get_python_binary(python, host)`
(lines 83-84); `python = ""` is falsy and skips the assignment. -/
def pythonStep (exps : List (String × String)) (python : Option String) (hostId : String) :
    Except String (List (String × String)) :=
  match python with
  | none => Except.ok exps
  | some p =>
    if p = "" then Except.ok exps
    else
      Except.bind (get_python_binary p hostId)
        (fun b => Except.ok (dictSet exps "PYTHON_BINARY" b))

/-- Statement `if version: expansions["VERSION"] = version` (lines 85-86). -/
def versionStep (exps : List (String × String)) (version : Option String) :
    List (String × String) :=
  match version with
  | none => exps
  | some v => if v = "" then exps else dictSet exps "VERSION" v

/-- Source `create_variant` (lines 67-96).  The `kwargs.setdefault`/`pop`/`.copy()`
dance means: take the caller's `expansions` dict (empty when absent) by value;
the remaining `**kwargs` at the call sites are `batchtime` and `tags`, passed
through.  Statement order as in the source: resolve the host, derive `name`,
inject `PYTHON_BINARY` then `VERSION`, apply the host-profile defaults with
`expansions.update(...)` (line 87, so host-profile values land last), then
`expansions = expansions or None` (line 88). -/
def create_variant (task_names : List String) (display_name : String)
    (python version host : Option String)
    (expansions : List (String × String))
    (batchtime : Option Nat) (tags : Option (List String)) :
    Except String BuildVariant :=
  let hostId := resolveHostId host
  match hostsFind hostId with
  | none => Except.error ("KeyError: " ++ hostId)
  | some hostRec =>
    let run_on := [hostRec.run_on]
    let name := strLower (replaceChar display_name ' ' ['-'])
    Except.bind (pythonStep expansions python hostId)
      (fun exps1 =>
        let exps2 := versionStep exps1 version
        let exps3 := dictUpdate exps2 hostRec.expansions
        let expOpt := if exps3.isEmpty then none else some exps3
        Except.ok
          { name := name, display_name := display_name, tasks := task_names,
            expansions := expOpt, run_on := run_on, batchtime := batchtime, tags := tags })

/-- Source `create_ocsp_variants` (lines 158-194).  Note: both display-name calls in
the source are `get_display_name(base_display, host, version, python)` — four
positional arguments to a function declared `def get_display_name(base, host,
**kwargs)`, which raises `TypeError` at the call; we route them through
`call_get_display_name` to model exactly that. -/
def create_ocsp_variants : Except String (List BuildVariant) := do
  let batchtime := BATCHTIME_WEEK * 2
  let expansions := [("AUTH", "noauth"), ("SSL", "ssl"), ("TOPOLOGY", "server")]
  let base_display := "OCSP test"
  let versions := ALL_VERSIONS.filter (fun v => v ≠ "4.0")
  let linux ← (zip_cycle2 versions ALL_PYTHONS "" "").mapM
    (fun vp => do
      let host := "rhel8"
      let dn ← call_get_display_name [base_display, host, vp.1, vp.2] []
      create_variant [".ocsp"] dn (some vp.2) (some vp.1) (some host) expansions
        (some batchtime) none)
  let winmac ← (listProd ["win64", "macos"] ["4.4", "8.0"]).mapM
    (fun hv => do
      let python := if hv.2 = "4.4" then CPYTHONS.headD "" else CPYTHONS.getLastD ""
      let dn ← call_get_display_name [base_display, hv.1, hv.2, python] []
      create_variant [".ocsp-rsa !.ocsp-staple"] dn (some python) (some hv.2) (some hv.1)
        expansions (some batchtime) none)
  pure (linux ++ winmac)

/-- Source `create_server_variants` (lines 197-249). -/
def create_server_variants : Except String (List BuildVariant) := do
  -- Full matrix on linux with min and max CPython, and latest pypy.
  let host := "rhel8"
  let partA ← (listProd (MIN_MAX_PYTHON ++ [PYPYS.getLastD ""]) AUTH_SSLS).mapM
    (fun pas => do
      let python := pas.1
      let expansions := [("AUTH", pas.2.1), ("SSL", pas.2.2), ("COVERAGE", "coverage")]
      let display_name ← get_display_name "Test" host ([("python", python)] ++ expansions)
      create_variant (TOPOLOGIES.map (fun t => "." ++ t)) display_name (some python) none
        (some host) expansions none (some ["coverage_tag"]))
  -- The rest of the pythons on linux.
  let partB ← (zip_cycle3 ((CPYTHONS.drop 1).dropLast ++ PYPYS.dropLast) AUTH_SSLS TOPOLOGIES
      "" ("", "") "").mapM
    (fun t => do
      let python := t.1
      let expansions := [("AUTH", t.2.1.1), ("SSL", t.2.1.2)]
      let display_name ← get_display_name "Test" host ([("python", python)] ++ expansions)
      create_variant ["." ++ t.2.2] display_name (some python) none (some host)
        expansions none none)
  -- A subset on each of the other platforms.
  let partC ← (["macos", "macos-arm64", "win64", "win32"] : List String).mapM
    (fun host =>
      (listProd (zip_cycle3 MIN_MAX_PYTHON AUTH_SSLS TOPOLOGIES "" ("", "") "") SYNCS).mapM
        (fun ts => do
          let python := ts.1.1
          let test_suite := if ts.2 = "sync" then "default" else "default_async"
          let expansions := [("AUTH", ts.1.2.1.1), ("SSL", ts.1.2.1.2),
            ("TEST_SUITES", test_suite)]
          let display_name ← get_display_name "Test" host ([("python", python)] ++ expansions)
          create_variant ["." ++ ts.1.2.2] display_name (some python) none (some host)
            expansions none none))
  pure (partA ++ partB ++ partC.flatten)

/-!
Heap model for the frame property of `create_variant` (claim about the
caller's dict never being mutated).  Python dicts are mutable objects; to
state "the caller's mapping is unchanged" we track a store of dict objects
addressed by `Nat` references, with a bump allocator.  `create_variant`
receives the caller's `expansions` dict as a reference, copies it
(`.copy()` allocates a fresh object), and performs all item assignments and
`update` calls on the copy, exactly mirroring lines 77-96 of the source.
-/

/-- A store of Python dict objects: contents per reference, plus the next
fresh reference.  References below `next` are the allocated ones. -/
structure DictHeap where
  store : Nat → List (String × String)
  next : Nat

/-- Allocate a fresh dict object holding `contents`. -/
def heapAlloc (h : DictHeap) (contents : List (String × String)) : Nat × DictHeap :=
  (h.next, ⟨fun r => if r = h.next then contents else h.store r, h.next + 1⟩)

/-- Overwrite the contents of the dict object at `r`. -/
def heapWrite (h : DictHeap) (r : Nat) (contents : List (String × String)) : DictHeap :=
  ⟨fun r2 => if r2 = r then contents else h.store r2, h.next⟩

/-- The `if python:` item assignment of `create_variant` acting on the dict
object at `copyRef` (lines 83-84). -/
def pythonStepHeap (hh : DictHeap) (copyRef : Nat) (python : Option String) (hostId : String) :
    Except String DictHeap :=
  match python with
  | none => Except.ok hh
  | some p =>
    if p = "" then Except.ok hh
    else
      Except.bind (get_python_binary p hostId)
        (fun b => Except.ok (heapWrite hh copyRef (dictSet (hh.store copyRef) "PYTHON_BINARY" b)))

/-- The `if version:` item assignment of `create_variant` acting on the dict
object at `copyRef` (lines 85-86). -/
def versionStepHeap (hh : DictHeap) (copyRef : Nat) (version : Option String) : DictHeap :=
  match version with
  | none => hh
  | some v => if v = "" then hh else heapWrite hh copyRef (dictSet (hh.store copyRef) "VERSION" v)

/-- Embedding of `create_variant` with the caller's `expansions` dict passed as a heap
reference `expRef`; statement-by-statement image of lines 77-96.  Returns the
built variant together with the heap after the call. -/
def create_variant_heap (h0 : DictHeap) (task_names : List String) (display_name : String)
    (python version host : Option String) (expRef : Nat)
    (batchtime : Option Nat) (tags : Option (List String)) :
    Except String (BuildVariant × DictHeap) :=
  -- expansions = kwargs.pop("expansions", dict()).copy()
  let alloc := heapAlloc h0 (h0.store expRef)
  let copyRef := alloc.1
  let h1 := alloc.2
  let hostId := resolveHostId host
  match hostsFind hostId with
  | none => Except.error ("KeyError: " ++ hostId)
  | some hostRec =>
    let run_on := [hostRec.run_on]
    let name := strLower (replaceChar display_name ' ' ['-'])
    Except.bind (pythonStepHeap h1 copyRef python hostId)
      (fun h2 =>
        let h3 := versionStepHeap h2 copyRef version
        -- expansions.update(HOSTS[host].expansions)
        let h4 := heapWrite h3 copyRef (dictUpdate (h3.store copyRef) hostRec.expansions)
        let exps := h4.store copyRef
        let expOpt := if exps.isEmpty then none else some exps
        Except.ok
          ({ name := name, display_name := display_name, tasks := task_names,
             expansions := expOpt, run_on := run_on, batchtime := batchtime, tags := tags }, h4))

/-- The value of `create_server_variants`, written out: one literal record
per emitted variant, in emission order. -/
def server_variants_expected : List BuildVariant :=
[{ name := "test-rhel8-py3.9-auth-ssl-cov",
   display_name := "Test RHEL8 py3.9 Auth SSL cov",
   tasks := [".standalone", ".replica_set", ".sharded_cluster"],
   expansions := some [("AUTH", "auth"),
                  ("SSL", "ssl"),
                  ("COVERAGE", "coverage"),
                  ("PYTHON_BINARY", "/opt/python/3.9/bin/python3")],
   run_on := ["rhel87-small"],
   batchtime := none,
   tags := some ["coverage_tag"] },
 { name := "test-rhel8-py3.9-noauth-ssl-cov",
   display_name := "Test RHEL8 py3.9 NoAuth SSL cov",
   tasks := [".standalone", ".replica_set", ".sharded_cluster"],
   expansions := some [("AUTH", "noauth"),
                  ("SSL", "ssl"),
                  ("COVERAGE", "coverage"),
                  ("PYTHON_BINARY", "/opt/python/3.9/bin/python3")],
   run_on := ["rhel87-small"],
   batchtime := none,
   tags := some ["coverage_tag"] },
 { name := "test-rhel8-py3.9-noauth-nossl-cov",
   display_name := "Test RHEL8 py3.9 NoAuth NoSSL cov",
   tasks := [".standalone", ".replica_set", ".sharded_cluster"],
   expansions := some [("AUTH", "noauth"),
                  ("SSL", "nossl"),
                  ("COVERAGE", "coverage"),
                  ("PYTHON_BINARY", "/opt/python/3.9/bin/python3")],
   run_on := ["rhel87-small"],
   batchtime := none,
   tags := some ["coverage_tag"] },
 { name := "test-rhel8-py3.13-auth-ssl-cov",
   display_name := "Test RHEL8 py3.13 Auth SSL cov",
   tasks := [".standalone", ".replica_set", ".sharded_cluster"],
   expansions := some [("AUTH", "auth"),
                  ("SSL", "ssl"),
                  ("COVERAGE", "coverage"),
                  ("PYTHON_BINARY", "/opt/python/3.13/bin/python3")],
   run_on := ["rhel87-small"],
   batchtime := none,
   tags := some ["coverage_tag"] },
 { name := "test-rhel8-py3.13-noauth-ssl-cov",
   display_name := "Test RHEL8 py3.13 NoAuth SSL cov",
   tasks := [".standalone", ".replica_set", ".sharded_cluster"],
   expansions := some [("AUTH", "noauth"),
                  ("SSL", "ssl"),
                  ("COVERAGE", "coverage"),
                  ("PYTHON_BINARY", "/opt/python/3.13/bin/python3")],
   run_on := ["rhel87-small"],
   batchtime := none,
   tags := some ["coverage_tag"] },
 { name := "test-rhel8-py3.13-noauth-nossl-cov",
   display_name := "Test RHEL8 py3.13 NoAuth NoSSL cov",
   tasks := [".standalone", ".replica_set", ".sharded_cluster"],
   expansions := some [("AUTH", "noauth"),
                  ("SSL", "nossl"),
                  ("COVERAGE", "coverage"),
                  ("PYTHON_BINARY", "/opt/python/3.13/bin/python3")],
   run_on := ["rhel87-small"],
   batchtime := none,
   tags := some ["coverage_tag"] },
 { name := "test-rhel8-pypy3.10-auth-ssl-cov",
   display_name := "Test RHEL8 pypy3.10 Auth SSL cov",
   tasks := [".standalone", ".replica_set", ".sharded_cluster"],
   expansions := some [("AUTH", "auth"),
                  ("SSL", "ssl"),
                  ("COVERAGE", "coverage"),
                  ("PYTHON_BINARY", "/opt/python/pypy3.10/bin/python3")],
   run_on := ["rhel87-small"],
   batchtime := none,
   tags := some ["coverage_tag"] },
 { name := "test-rhel8-pypy3.10-noauth-ssl-cov",
   display_name := "Test RHEL8 pypy3.10 NoAuth SSL cov",
   tasks := [".standalone", ".replica_set", ".sharded_cluster"],
   expansions := some [("AUTH", "noauth"),
                  ("SSL", "ssl"),
                  ("COVERAGE", "coverage"),
                  ("PYTHON_BINARY", "/opt/python/pypy3.10/bin/python3")],
   run_on := ["rhel87-small"],
   batchtime := none,
   tags := some ["coverage_tag"] },
 { name := "test-rhel8-pypy3.10-noauth-nossl-cov",
   display_name := "Test RHEL8 pypy3.10 NoAuth NoSSL cov",
   tasks := [".standalone", ".replica_set", ".sharded_cluster"],
   expansions := some [("AUTH", "noauth"),
                  ("SSL", "nossl"),
                  ("COVERAGE", "coverage"),
                  ("PYTHON_BINARY", "/opt/python/pypy3.10/bin/python3")],
   run_on := ["rhel87-small"],
   batchtime := none,
   tags := some ["coverage_tag"] },
 { name := "test-rhel8-py3.10-auth-ssl",
   display_name := "Test RHEL8 py3.10 Auth SSL",
   tasks := [".standalone"],
   expansions := some [("AUTH", "auth"), ("SSL", "ssl"), ("PYTHON_BINARY", "/opt/python/3.10/bin/python3")],
   run_on := ["rhel87-small"],
   batchtime := none,
   tags := none },
 { name := "test-rhel8-py3.11-noauth-ssl",
   display_name := "Test RHEL8 py3.11 NoAuth SSL",
   tasks := [".replica_set"],
   expansions := some [("AUTH", "noauth"), ("SSL", "ssl"), ("PYTHON_BINARY", "/opt/python/3.11/bin/python3")],
   run_on := ["rhel87-small"],
   batchtime := none,
   tags := none },
 { name := "test-rhel8-py3.12-noauth-nossl",
   display_name := "Test RHEL8 py3.12 NoAuth NoSSL",
   tasks := [".sharded_cluster"],
   expansions := some [("AUTH", "noauth"), ("SSL", "nossl"), ("PYTHON_BINARY", "/opt/python/3.12/bin/python3")],
   run_on := ["rhel87-small"],
   batchtime := none,
   tags := none },
 { name := "test-rhel8-pypy3.9-auth-ssl",
   display_name := "Test RHEL8 pypy3.9 Auth SSL",
   tasks := [".standalone"],
   expansions := some [("AUTH", "auth"), ("SSL", "ssl"), ("PYTHON_BINARY", "/opt/python/pypy3.9/bin/python3")],
   run_on := ["rhel87-small"],
   batchtime := none,
   tags := none },
 { name := "test-macos-py3.9-auth-ssl-sync",
   display_name := "Test macOS py3.9 Auth SSL Sync",
   tasks := [".standalone"],
   expansions := some [("AUTH", "auth"),
                  ("SSL", "ssl"),
                  ("TEST_SUITES", "default"),
                  ("PYTHON_BINARY", "/Library/Frameworks/Python.Framework/Versions/3.9/bin/python3"),
                  ("SKIP_CSOT_TESTS", "true")],
   run_on := ["macos-14"],
   batchtime := none,
   tags := none },
 { name := "test-macos-py3.9-auth-ssl-async",
   display_name := "Test macOS py3.9 Auth SSL Async",
   tasks := [".standalone"],
   expansions := some [("AUTH", "auth"),
                  ("SSL", "ssl"),
                  ("TEST_SUITES", "default_async"),
                  ("PYTHON_BINARY", "/Library/Frameworks/Python.Framework/Versions/3.9/bin/python3"),
                  ("SKIP_CSOT_TESTS", "true")],
   run_on := ["macos-14"],
   batchtime := none,
   tags := none },
 { name := "test-macos-py3.13-noauth-ssl-sync",
   display_name := "Test macOS py3.13 NoAuth SSL Sync",
   tasks := [".replica_set"],
   expansions := some [("AUTH", "noauth"),
                  ("SSL", "ssl"),
                  ("TEST_SUITES", "default"),
                  ("PYTHON_BINARY", "/Library/Frameworks/Python.Framework/Versions/3.13/bin/python3"),
                  ("SKIP_CSOT_TESTS", "true")],
   run_on := ["macos-14"],
   batchtime := none,
   tags := none },
 { name := "test-macos-py3.13-noauth-ssl-async",
   display_name := "Test macOS py3.13 NoAuth SSL Async",
   tasks := [".replica_set"],
   expansions := some [("AUTH", "noauth"),
                  ("SSL", "ssl"),
                  ("TEST_SUITES", "default_async"),
                  ("PYTHON_BINARY", "/Library/Frameworks/Python.Framework/Versions/3.13/bin/python3"),
                  ("SKIP_CSOT_TESTS", "true")],
   run_on := ["macos-14"],
   batchtime := none,
   tags := none },
 { name := "test-macos-py3.9-noauth-nossl-sync",
   display_name := "Test macOS py3.9 NoAuth NoSSL Sync",
   tasks := [".sharded_cluster"],
   expansions := some [("AUTH", "noauth"),
                  ("SSL", "nossl"),
                  ("TEST_SUITES", "default"),
                  ("PYTHON_BINARY", "/Library/Frameworks/Python.Framework/Versions/3.9/bin/python3"),
                  ("SKIP_CSOT_TESTS", "true")],
   run_on := ["macos-14"],
   batchtime := none,
   tags := none },
 { name := "test-macos-py3.9-noauth-nossl-async",
   display_name := "Test macOS py3.9 NoAuth NoSSL Async",
   tasks := [".sharded_cluster"],
   expansions := some [("AUTH", "noauth"),
                  ("SSL", "nossl"),
                  ("TEST_SUITES", "default_async"),
                  ("PYTHON_BINARY", "/Library/Frameworks/Python.Framework/Versions/3.9/bin/python3"),
                  ("SKIP_CSOT_TESTS", "true")],
   run_on := ["macos-14"],
   batchtime := none,
   tags := none },
 { name := "test-macos-arm64-py3.9-auth-ssl-sync",
   display_name := "Test macOS Arm64 py3.9 Auth SSL Sync",
   tasks := [".standalone"],
   expansions := some [("AUTH", "auth"),
                  ("SSL", "ssl"),
                  ("TEST_SUITES", "default"),
                  ("PYTHON_BINARY", "/Library/Frameworks/Python.Framework/Versions/3.9/bin/python3"),
                  ("SKIP_CSOT_TESTS", "true")],
   run_on := ["macos-14-arm64"],
   batchtime := none,
   tags := none },
 { name := "test-macos-arm64-py3.9-auth-ssl-async",
   display_name := "Test macOS Arm64 py3.9 Auth SSL Async",
   tasks := [".standalone"],
   expansions := some [("AUTH", "auth"),
                  ("SSL", "ssl"),
                  ("TEST_SUITES", "default_async"),
                  ("PYTHON_BINARY", "/Library/Frameworks/Python.Framework/Versions/3.9/bin/python3"),
                  ("SKIP_CSOT_TESTS", "true")],
   run_on := ["macos-14-arm64"],
   batchtime := none,
   tags := none },
 { name := "test-macos-arm64-py3.13-noauth-ssl-sync",
   display_name := "Test macOS Arm64 py3.13 NoAuth SSL Sync",
   tasks := [".replica_set"],
   expansions := some [("AUTH", "noauth"),
                  ("SSL", "ssl"),
                  ("TEST_SUITES", "default"),
                  ("PYTHON_BINARY", "/Library/Frameworks/Python.Framework/Versions/3.13/bin/python3"),
                  ("SKIP_CSOT_TESTS", "true")],
   run_on := ["macos-14-arm64"],
   batchtime := none,
   tags := none },
 { name := "test-macos-arm64-py3.13-noauth-ssl-async",
   display_name := "Test macOS Arm64 py3.13 NoAuth SSL Async",
   tasks := [".replica_set"],
   expansions := some [("AUTH", "noauth"),
                  ("SSL", "ssl"),
                  ("TEST_SUITES", "default_async"),
                  ("PYTHON_BINARY", "/Library/Frameworks/Python.Framework/Versions/3.13/bin/python3"),
                  ("SKIP_CSOT_TESTS", "true")],
   run_on := ["macos-14-arm64"],
   batchtime := none,
   tags := none },
 { name := "test-macos-arm64-py3.9-noauth-nossl-sync",
   display_name := "Test macOS Arm64 py3.9 NoAuth NoSSL Sync",
   tasks := [".sharded_cluster"],
   expansions := some [("AUTH", "noauth"),
                  ("SSL", "nossl"),
                  ("TEST_SUITES", "default"),
                  ("PYTHON_BINARY", "/Library/Frameworks/Python.Framework/Versions/3.9/bin/python3"),
                  ("SKIP_CSOT_TESTS", "true")],
   run_on := ["macos-14-arm64"],
   batchtime := none,
   tags := none },
 { name := "test-macos-arm64-py3.9-noauth-nossl-async",
   display_name := "Test macOS Arm64 py3.9 NoAuth NoSSL Async",
   tasks := [".sharded_cluster"],
   expansions := some [("AUTH", "noauth"),
                  ("SSL", "nossl"),
                  ("TEST_SUITES", "default_async"),
                  ("PYTHON_BINARY", "/Library/Frameworks/Python.Framework/Versions/3.9/bin/python3"),
                  ("SKIP_CSOT_TESTS", "true")],
   run_on := ["macos-14-arm64"],
   batchtime := none,
   tags := none },
 { name := "test-win64-py3.9-auth-ssl-sync",
   display_name := "Test Win64 py3.9 Auth SSL Sync",
   tasks := [".standalone"],
   expansions := some [("AUTH", "auth"),
                  ("SSL", "ssl"),
                  ("TEST_SUITES", "default"),
                  ("PYTHON_BINARY", "C:/python/Python39/python.exe"),
                  ("SKIP_CSOT_TESTS", "true")],
   run_on := ["windows-64-vsMulti-small"],
   batchtime := none,
   tags := none },
 { name := "test-win64-py3.9-auth-ssl-async",
   display_name := "Test Win64 py3.9 Auth SSL Async",
   tasks := [".standalone"],
   expansions := some [("AUTH", "auth"),
                  ("SSL", "ssl"),
                  ("TEST_SUITES", "default_async"),
                  ("PYTHON_BINARY", "C:/python/Python39/python.exe"),
                  ("SKIP_CSOT_TESTS", "true")],
   run_on := ["windows-64-vsMulti-small"],
   batchtime := none,
   tags := none },
 { name := "test-win64-py3.13-noauth-ssl-sync",
   display_name := "Test Win64 py3.13 NoAuth SSL Sync",
   tasks := [".replica_set"],
   expansions := some [("AUTH", "noauth"),
                  ("SSL", "ssl"),
                  ("TEST_SUITES", "default"),
                  ("PYTHON_BINARY", "C:/python/Python313/python.exe"),
                  ("SKIP_CSOT_TESTS", "true")],
   run_on := ["windows-64-vsMulti-small"],
   batchtime := none,
   tags := none },
 { name := "test-win64-py3.13-noauth-ssl-async",
   display_name := "Test Win64 py3.13 NoAuth SSL Async",
   tasks := [".replica_set"],
   expansions := some [("AUTH", "noauth"),
                  ("SSL", "ssl"),
                  ("TEST_SUITES", "default_async"),
                  ("PYTHON_BINARY", "C:/python/Python313/python.exe"),
                  ("SKIP_CSOT_TESTS", "true")],
   run_on := ["windows-64-vsMulti-small"],
   batchtime := none,
   tags := none },
 { name := "test-win64-py3.9-noauth-nossl-sync",
   display_name := "Test Win64 py3.9 NoAuth NoSSL Sync",
   tasks := [".sharded_cluster"],
   expansions := some [("AUTH", "noauth"),
                  ("SSL", "nossl"),
                  ("TEST_SUITES", "default"),
                  ("PYTHON_BINARY", "C:/python/Python39/python.exe"),
                  ("SKIP_CSOT_TESTS", "true")],
   run_on := ["windows-64-vsMulti-small"],
   batchtime := none,
   tags := none },
 { name := "test-win64-py3.9-noauth-nossl-async",
   display_name := "Test Win64 py3.9 NoAuth NoSSL Async",
   tasks := [".sharded_cluster"],
   expansions := some [("AUTH", "noauth"),
                  ("SSL", "nossl"),
                  ("TEST_SUITES", "default_async"),
                  ("PYTHON_BINARY", "C:/python/Python39/python.exe"),
                  ("SKIP_CSOT_TESTS", "true")],
   run_on := ["windows-64-vsMulti-small"],
   batchtime := none,
   tags := none },
 { name := "test-win32-py3.9-auth-ssl-sync",
   display_name := "Test Win32 py3.9 Auth SSL Sync",
   tasks := [".standalone"],
   expansions := some [("AUTH", "auth"),
                  ("SSL", "ssl"),
                  ("TEST_SUITES", "default"),
                  ("PYTHON_BINARY", "C:/python/32/Python39/python.exe"),
                  ("SKIP_CSOT_TESTS", "true")],
   run_on := ["windows-64-vsMulti-small"],
   batchtime := none,
   tags := none },
 { name := "test-win32-py3.9-auth-ssl-async",
   display_name := "Test Win32 py3.9 Auth SSL Async",
   tasks := [".standalone"],
   expansions := some [("AUTH", "auth"),
                  ("SSL", "ssl"),
                  ("TEST_SUITES", "default_async"),
                  ("PYTHON_BINARY", "C:/python/32/Python39/python.exe"),
                  ("SKIP_CSOT_TESTS", "true")],
   run_on := ["windows-64-vsMulti-small"],
   batchtime := none,
   tags := none },
 { name := "test-win32-py3.13-noauth-ssl-sync",
   display_name := "Test Win32 py3.13 NoAuth SSL Sync",
   tasks := [".replica_set"],
   expansions := some [("AUTH", "noauth"),
                  ("SSL", "ssl"),
                  ("TEST_SUITES", "default"),
                  ("PYTHON_BINARY", "C:/python/32/Python313/python.exe"),
                  ("SKIP_CSOT_TESTS", "true")],
   run_on := ["windows-64-vsMulti-small"],
   batchtime := none,
   tags := none },
 { name := "test-win32-py3.13-noauth-ssl-async",
   display_name := "Test Win32 py3.13 NoAuth SSL Async",
   tasks := [".replica_set"],
   expansions := some [("AUTH", "noauth"),
                  ("SSL", "ssl"),
                  ("TEST_SUITES", "default_async"),
                  ("PYTHON_BINARY", "C:/python/32/Python313/python.exe"),
                  ("SKIP_CSOT_TESTS", "true")],
   run_on := ["windows-64-vsMulti-small"],
   batchtime := none,
   tags := none },
 { name := "test-win32-py3.9-noauth-nossl-sync",
   display_name := "Test Win32 py3.9 NoAuth NoSSL Sync",
   tasks := [".sharded_cluster"],
   expansions := some [("AUTH", "noauth"),
                  ("SSL", "nossl"),
                  ("TEST_SUITES", "default"),
                  ("PYTHON_BINARY", "C:/python/32/Python39/python.exe"),
                  ("SKIP_CSOT_TESTS", "true")],
   run_on := ["windows-64-vsMulti-small"],
   batchtime := none,
   tags := none },
 { name := "test-win32-py3.9-noauth-nossl-async",
   display_name := "Test Win32 py3.9 NoAuth NoSSL Async",
   tasks := [".sharded_cluster"],
   expansions := some [("AUTH", "noauth"),
                  ("SSL", "nossl"),
                  ("TEST_SUITES", "default_async"),
                  ("PYTHON_BINARY", "C:/python/32/Python39/python.exe"),
                  ("SKIP_CSOT_TESTS", "true")],
   run_on := ["windows-64-vsMulti-small"],
   batchtime := none,
   tags := none }]

/-!
Helper lemmas shared by the claim theorems.
-/

/-- Writing a dict object at one reference leaves every other reference's
contents unchanged. -/
theorem heapWrite_store_ne (hh : DictHeap) (c : List (String × String)) (r r2 : Nat)
    (hne : r2 ≠ r) : (heapWrite hh r c).store r2 = hh.store r2 := by
  simp [heapWrite, hne]

/-- The python item-assignment step only writes the dict object at `copyRef`. -/
theorem pythonStepHeap_store_ne (hh : DictHeap) (copyRef : Nat) (python : Option String)
    (hostId : String) (hh2 : DictHeap)
    (hp : pythonStepHeap hh copyRef python hostId = Except.ok hh2)
    (r2 : Nat) (hne : r2 ≠ copyRef) : hh2.store r2 = hh.store r2 := by
  cases python with
  | none => simp only [pythonStepHeap] at hp; cases hp; rfl
  | some p =>
    simp only [pythonStepHeap] at hp
    by_cases hps : p = ""
    · rw [if_pos hps] at hp; cases hp; rfl
    · rw [if_neg hps] at hp
      cases hb : get_python_binary p hostId with
      | error err => rw [hb] at hp; cases hp
      | ok b =>
        rw [hb] at hp
        simp only [Except.bind] at hp
        cases hp
        exact heapWrite_store_ne _ _ _ _ hne

/-- The version item-assignment step only writes the dict object at `copyRef`. -/
theorem versionStepHeap_store_ne (hh : DictHeap) (copyRef : Nat) (version : Option String)
    (r2 : Nat) (hne : r2 ≠ copyRef) :
    (versionStepHeap hh copyRef version).store r2 = hh.store r2 := by
  cases version with
  | none => rfl
  | some vv =>
    simp only [versionStepHeap]
    by_cases hvs : vv = ""
    · rw [if_pos hvs]
    · rw [if_neg hvs]
      exact heapWrite_store_ne _ _ _ _ hne

/-- Lookup after `d[k] = v` at the same key yields the new value. -/
theorem dictFind_dictSet_self (d : List (String × String)) (k v : String) :
    dictFind (dictSet d k v) k = some v := by
  induction d with
  | nil => simp [dictSet, dictFind]
  | cons p rest ih =>
    by_cases h : p.1 = k
    · simp [dictSet, dictFind, h]
    · simp [dictSet, dictFind, h, ih]

/-- Lookup after `d[k] = v` at any other key is unchanged. -/
theorem dictFind_dictSet_ne (d : List (String × String)) (k v k' : String) (h : k' ≠ k) :
    dictFind (dictSet d k v) k' = dictFind d k' := by
  have h2 : ¬(k = k') := fun hh => h hh.symm
  induction d with
  | nil => simp [dictSet, dictFind, h2]
  | cons p rest ih =>
    by_cases hp : p.1 = k
    · have hp2 : ¬(p.1 = k') := by rw [hp]; exact h2
      simp [dictSet, dictFind, hp, h2, hp2]
    · simp [dictSet, dictFind, hp, ih]

/-- Every profile in the closed host registry carries either no default
overrides or exactly the macOS/Windows `SKIP_CSOT_TESTS` override. -/
theorem hostExpansions_cases (s : String) (hrec : Host)
    (hh : hostsFind s = some hrec) :
    hrec.expansions = [] ∨ hrec.expansions = _macos_expansions := by
  unfold hostsFind at hh
  cases hfind : HOSTS.find? (fun p => p.1 = s) with
  | none => rw [hfind] at hh; cases hh
  | some p =>
    rw [hfind] at hh
    cases hh
    have hmem : p ∈ HOSTS := List.mem_of_find?_eq_some hfind
    simp only [HOSTS, List.mem_cons, List.not_mem_nil, or_false] at hmem
    rcases hmem with rfl | rfl | rfl | rfl | rfl
    · left; rfl
    · right; rfl
    · right; rfl
    · right; rfl
    · right; rfl

/-- Reading back the `expansions = expansions or None` encoding: `getD []`
recovers the merged dict in both the empty and non-empty case. -/
theorem expOpt_getD (l : List (String × String)) :
    ((if l.isEmpty then none else some l : Option (List (String × String))).getD []) = l := by
  cases l <;> simp

/-- Unpack a successful `create_variant` call: the python step succeeded and
the variant's expansions are the caller dict after the python step, the
version step, and the host-default `update`, in that order. -/
theorem create_variant_ok_expansions (task_names : List String) (display_name : String)
    (python version host : Option String) (e : List (String × String))
    (bt : Option Nat) (tg : Option (List String)) (hrec : Host)
    (hh : hostsFind (resolveHostId host) = some hrec) (v : BuildVariant)
    (hv : create_variant task_names display_name python version host e bt tg = Except.ok v) :
    ∃ exps1, pythonStep e python (resolveHostId host) = Except.ok exps1 ∧
      v.expansions.getD [] = dictUpdate (versionStep exps1 version) hrec.expansions := by
  simp only [create_variant] at hv
  rw [hh] at hv
  cases hp : pythonStep e python (resolveHostId host) with
  | error err => rw [hp] at hv; cases hv
  | ok exps1 =>
    rw [hp] at hv
    simp only [Except.bind] at hv
    cases hv
    exact ⟨exps1, rfl, expOpt_getD _⟩

/-- The python step changes no key other than `PYTHON_BINARY`. -/
theorem pythonStep_find_ne (e : List (String × String)) (python : Option String)
    (hostId k : String) (hk : k ≠ "PYTHON_BINARY") (exps1 : List (String × String))
    (hp : pythonStep e python hostId = Except.ok exps1) :
    dictFind exps1 k = dictFind e k := by
  cases python with
  | none =>
    simp only [pythonStep] at hp
    cases hp
    rfl
  | some p =>
    simp only [pythonStep] at hp
    by_cases hps : p = ""
    · rw [if_pos hps] at hp; cases hp; rfl
    · rw [if_neg hps] at hp
      cases hb : get_python_binary p hostId with
      | error err => rw [hb] at hp; cases hp
      | ok b =>
        rw [hb] at hp
        simp only [Except.bind] at hp
        cases hp
        exact dictFind_dictSet_ne _ _ _ _ hk

/-- The version step changes no key other than `VERSION`. -/
theorem versionStep_find_ne (e : List (String × String)) (version : Option String)
    (k : String) (hk : k ≠ "VERSION") :
    dictFind (versionStep e version) k = dictFind e k := by
  cases version with
  | none => rfl
  | some vv =>
    simp only [versionStep]
    by_cases hvs : vv = ""
    · rw [if_pos hvs]
    · rw [if_neg hvs]
      exact dictFind_dictSet_ne _ _ _ _ hk

/-- In the `Except` monad, a fold over a list containing an element on which
the folding function always fails must itself fail. -/
theorem foldlM_except_error {α β : Type} (f : β → α → Except String β) (x : α)
    (hf : ∀ acc, ∃ e, f acc x = Except.error e) :
    ∀ (l : List α), x ∈ l → ∀ acc, ∃ e, l.foldlM f acc = Except.error e := by
  intro l
  induction l with
  | nil => intro hx; cases hx
  | cons a as ih =>
    intro hx acc
    cases hfa : f acc a with
    | error e =>
      refine ⟨e, ?_⟩
      show (f acc a >>= fun b => as.foldlM f b) = Except.error e
      rw [hfa]
      rfl
    | ok b =>
      rcases List.mem_cons.mp hx with rfl | hx2
      · obtain ⟨e, he⟩ := hf acc
        rw [hfa] at he
        cases he
      · obtain ⟨e, he⟩ := ih hx2 b
        refine ⟨e, ?_⟩
        show (f acc a >>= fun b => as.foldlM f b) = Except.error e
        rw [hfa]
        exact he

/-- Every entry of a list of lengths is bounded by the `zip_longest` count. -/
theorem le_zipLongestLen (ls : List Nat) (n : Nat) (hn : n ∈ ls) : n ≤ zipLongestLen ls := by
  induction ls with
  | nil => cases hn
  | cons a ls ih =>
    rcases List.mem_cons.mp hn with rfl | h
    · exact Nat.le_max_left _ _
    · exact Nat.le_trans (ih h) (Nat.le_max_right _ _)

/-- A positive `zip_longest` count is attained by some entry of the list. -/
theorem zipLongestLen_attained (ls : List Nat) (hpos : 0 < zipLongestLen ls) :
    ∃ n ∈ ls, zipLongestLen ls = n := by
  induction ls with
  | nil => simp [zipLongestLen] at hpos
  | cons a ls ih =>
    rcases Nat.le_total (zipLongestLen ls) a with h | h
    · exact ⟨a, List.mem_cons_self a ls, Nat.max_eq_left h⟩
    · have hpos2 : 0 < zipLongestLen ls := by
        have heq : zipLongestLen (a :: ls) = zipLongestLen ls := Nat.max_eq_right h
        rw [heq] at hpos; exact hpos
      obtain ⟨n, hn, he⟩ := ih hpos2
      refine ⟨n, List.mem_cons_of_mem a hn, ?_⟩
      rw [show zipLongestLen (a :: ls) = zipLongestLen ls from Nat.max_eq_right h, he]

/-!
Claim theorems.
-/

/-- C1 (counterexample): the claim "for every key present in both the
caller-supplied expansions and the host profile's default expansions, the
caller-supplied value appears in the result" is false: calling
`create_variant` on the macos host with caller expansions
`SKIP_CSOT_TESTS=false` yields a variant whose expansions hold the host
default `SKIP_CSOT_TESTS=true`, not the caller's value. -/
theorem create_variant_caller_value_overridden :
    ∃ v, create_variant ["t"] "Test macOS" none none (some "macos")
        [("SKIP_CSOT_TESTS", "false")] none none = Except.ok v ∧
      v.expansions = some [("SKIP_CSOT_TESTS", "true")] :=
  ⟨_, rfl, rfl⟩

/-- C1 (amended): the expansions of a successfully created variant are the
merge of the caller-supplied expansions (after the `PYTHON_BINARY` and
`VERSION` injections) with the host profile's default expansions, and for
every key present in both, the HOST-PROFILE default value (not the caller's)
appears in the result, because `expansions.update(HOSTS[host].expansions)`
runs last. -/
theorem create_variant_expansions_host_precedence (task_names : List String)
    (display_name : String) (python version host : Option String)
    (e : List (String × String)) (bt : Option Nat) (tg : Option (List String))
    (hrec : Host) (hh : hostsFind (resolveHostId host) = some hrec)
    (v : BuildVariant)
    (hv : create_variant task_names display_name python version host e bt tg = Except.ok v)
    (k : String) :
    (∀ val, dictFind hrec.expansions k = some val →
        dictFind (v.expansions.getD []) k = some val)
    ∧ (dictFind hrec.expansions k = none → k ≠ "PYTHON_BINARY" → k ≠ "VERSION" →
        dictFind (v.expansions.getD []) k = dictFind e k) := by
  obtain ⟨exps1, hp, hexp⟩ :=
    create_variant_ok_expansions task_names display_name python version host e bt tg hrec hh v hv
  rcases hostExpansions_cases _ _ hh with hcase | hcase
  · constructor
    · intro val hval
      rw [hcase] at hval
      cases hval
    · intro _ hkP hkV
      rw [hexp, hcase]
      show dictFind (versionStep exps1 version) k = dictFind e k
      rw [versionStep_find_ne _ _ _ hkV]
      exact pythonStep_find_ne _ _ _ _ hkP _ hp
  · constructor
    · intro val hval
      rw [hcase] at hval
      rw [hexp, hcase]
      unfold _macos_expansions at hval ⊢
      by_cases hk : "SKIP_CSOT_TESTS" = k
      · simp only [dictFind, if_pos hk] at hval
        cases hval
        rw [← hk]
        exact dictFind_dictSet_self _ _ _
      · simp only [dictFind, if_neg hk] at hval
        cases hval
    · intro hnone hkP hkV
      rw [hcase] at hnone
      unfold _macos_expansions at hnone
      by_cases hk : "SKIP_CSOT_TESTS" = k
      · simp only [dictFind, if_pos hk] at hnone
        cases hnone
      · rw [hexp, hcase]
        unfold _macos_expansions
        have hstep : dictUpdate (versionStep exps1 version) [("SKIP_CSOT_TESTS", "true")] =
            dictSet (versionStep exps1 version) "SKIP_CSOT_TESTS" "true" := rfl
        rw [hstep, dictFind_dictSet_ne _ _ _ _ (fun hh2 => hk hh2.symm),
          versionStep_find_ne _ _ _ hkV]
        exact pythonStep_find_ne _ _ _ _ hkP _ hp

/-- C1 (witness): concrete instance of the amended claim on the macos host:
the colliding key gets the host value, the caller-only key survives. -/
theorem create_variant_expansions_host_precedence_witness :
    ∃ v, create_variant ["t"] "Test macOS" none none (some "macos")
        [("SKIP_CSOT_TESTS", "false"), ("AUTH", "auth")] none none = Except.ok v ∧
      dictFind (v.expansions.getD []) "SKIP_CSOT_TESTS" = some "true" ∧
      dictFind (v.expansions.getD []) "AUTH" = some "auth" := by
  refine ⟨_, rfl, ?_, ?_⟩
  · exact (create_variant_expansions_host_precedence ["t"] "Test macOS" none none (some "macos")
      [("SKIP_CSOT_TESTS", "false"), ("AUTH", "auth")] none none
      ⟨"macos", "macos-14", "macOS", _macos_expansions⟩ (by decide) _ rfl "SKIP_CSOT_TESTS").1
      "true" (by decide)
  · exact (create_variant_expansions_host_precedence ["t"] "Test macOS" none none (some "macos")
      [("SKIP_CSOT_TESTS", "false"), ("AUTH", "auth")] none none
      ⟨"macos", "macos-14", "macOS", _macos_expansions⟩ (by decide) _ rfl "AUTH").2
      (by decide) (by decide) (by decide)

/-- C2: `create_ocsp_variants` does not return the claimed list of variants:
its very first iteration calls `get_display_name(base_display, host, version,
python)` with four positional arguments, and the function only accepts two,
so the run raises `TypeError` before any variant is produced. -/
theorem create_ocsp_variants_type_error :
    create_ocsp_variants =
      Except.error "TypeError: get_display_name() takes 2 positional arguments but 4 were given" := by
  rfl

/-- C3: `zip_cycle` yields exactly as many tuples as the longest input is
long (the length bound is attained by some input), and the `j`-th slot of the
`i`-th tuple is the `j`-th input's element at index `i` modulo that input's
length, or the caller-supplied default when that input is empty. -/
theorem zip_cycle_spec {α : Type} (inputs : List (List α)) (d : α) (i j : Nat)
    (hi : i < zipLongestLen (inputs.map List.length)) (hj : j < inputs.length) :
    (zip_cycle inputs d).length = zipLongestLen (inputs.map List.length)
    ∧ (∀ l ∈ inputs, l.length ≤ (zip_cycle inputs d).length)
    ∧ (∃ l, l ∈ inputs ∧ l.length = (zip_cycle inputs d).length)
    ∧ ((zip_cycle inputs d).getD i []).getD j d =
        (if h : (inputs.getD j []).length = 0 then d
         else (inputs.getD j []).get
           ⟨i % (inputs.getD j []).length, Nat.mod_lt i (Nat.pos_of_ne_zero h)⟩) := by
  have hlen : (zip_cycle inputs d).length = zipLongestLen (inputs.map List.length) := by
    simp [zip_cycle]
  refine ⟨hlen, ?_, ?_, ?_⟩
  · intro l hl
    rw [hlen]
    exact le_zipLongestLen _ _ (List.mem_map_of_mem List.length hl)
  · have hpos : 0 < zipLongestLen (inputs.map List.length) :=
      Nat.lt_of_le_of_lt (Nat.zero_le i) hi
    obtain ⟨n, hn, he⟩ := zipLongestLen_attained _ hpos
    obtain ⟨l, hl, rfl⟩ := List.mem_map.mp hn
    exact ⟨l, hl, by rw [hlen, he]⟩
  · have h1 : ((zip_cycle inputs d).getD i []) =
        inputs.map (fun l => (cycleNth l i).getD d) := by
      rw [List.getD_eq_getElem _ _ (by rw [hlen]; exact hi)]
      simp [zip_cycle]
    rw [h1, List.getD_eq_getElem _ _ (by simpa using hj), List.getElem_map,
      List.getD_eq_getElem _ _ hj]
    simp only [cycleNth]
    split
    · simp
    · simp [List.get_eq_getElem]

/-- C3 (witness): concrete run of `zip_cycle` on `[["a","b","c"],["x","y"],[]]`
with default `"q"`: tuple 2, slot 1 is `"x"` (`["x","y"]` at index `2 % 2`). -/
theorem zip_cycle_spec_witness :
    ((zip_cycle [["a", "b", "c"], ["x", "y"], []] "q").getD 2 []).getD 1 "q" = "x" :=
  ((zip_cycle_spec [["a", "b", "c"], ["x", "y"], []] "q" 2 1 (by decide) (by decide)).2.2.2).trans
    (by decide)

/-- C4: across the full list of variants produced by one run of
`create_server_variants`, every variant's derived name is distinct from every
other variant's name. -/
theorem server_variant_names_unique :
    ∃ l, create_server_variants = Except.ok l ∧ (l.map BuildVariant.name).Nodup :=
  ⟨server_variants_expected, by rfl, by decide⟩

/-- C5: generation is deterministic: `create_server_variants` is a pure
constant of the compiled-in tables, equal to the explicit literal list
`server_variants_expected`, so any two runs produce identical variant
lists. -/
theorem create_server_variants_deterministic :
    create_server_variants = Except.ok server_variants_expected := by
  rfl

/-- C6: a variant built with no caller expansions, no python, no server
version, on the rhel8 host (whose profile carries no default overrides)
carries no expansions field at all (`none`, the absent encoding, not an
empty mapping). -/
theorem create_variant_empty_expansions_omitted :
    ∃ v, create_variant ["task1"] "Test RHEL8" none none (some "rhel8") [] none none =
        Except.ok v ∧ v.expansions = none :=
  ⟨_, rfl, rfl⟩

/-- C7: `get_python_binary("3.9", "rhel8")` is `/opt/python/3.9/bin/python3`,
and `get_python_binary("3.10", "win32")` is
`C:/python/32/Python310/python.exe` (dots stripped, 32-bit base root). -/
theorem get_python_binary_examples :
    get_python_binary "3.9" "rhel8" = Except.ok "/opt/python/3.9/bin/python3" ∧
      get_python_binary "3.10" "win32" = Except.ok "C:/python/32/Python310/python.exe" :=
  ⟨rfl, rfl⟩

/-- C8: `get_display_name("Test", "rhel8", python="3.9", auth="auth",
ssl="ssl")` builds `"Test RHEL8"` and appends one formatted token per axis
binding in caller order, giving `"Test RHEL8 py3.9 Auth SSL"`. -/
theorem get_display_name_example :
    get_display_name "Test" "rhel8" [("python", "3.9"), ("auth", "auth"), ("ssl", "ssl")] =
      Except.ok "Test RHEL8 py3.9 Auth SSL" := rfl

/-- C9: for every axis key other than `version` and `python` whose lowercased
form is not in the display lookup table, `get_display_name` fails with an
error rather than producing a display name. -/
theorem get_display_name_unrecognized_axis (base host key value : String)
    (kwargs : List (String × String)) (hmem : (key, value) ∈ kwargs)
    (hkv : key ≠ "version") (hkp : key ≠ "python")
    (hlook : displayLookupFind (strLower key) = none) :
    ∃ e, get_display_name base host kwargs = Except.error e := by
  unfold get_display_name
  cases hh : hostsFind host with
  | none => exact ⟨"KeyError: " ++ host, rfl⟩
  | some hrec =>
    have hbad : ∀ acc : String, ∃ e,
        (fun (acc : String) (kv : String × String) =>
          Except.bind (displayToken kv.1 kv.2) (fun n => Except.ok (acc ++ " " ++ n)))
          acc (key, value) = Except.error e := by
      intro acc
      refine ⟨"Missing display handling for " ++ key, ?_⟩
      simp [displayToken, hkv, hkp, hlook, Except.bind]
    obtain ⟨e, he⟩ := foldlM_except_error
      (fun (acc : String) (kv : String × String) =>
        Except.bind (displayToken kv.1 kv.2) (fun n => Except.ok (acc ++ " " ++ n)))
      (key, value) hbad kwargs hmem (base ++ " " ++ hrec.display_name)
    exact ⟨e, he⟩

/-- C9 (witness): the unrecognized axis key `topology` makes
`get_display_name` fail on a concrete call. -/
theorem get_display_name_unrecognized_axis_witness :
    ∃ e, get_display_name "Test" "rhel8" [("topology", "standalone")] = Except.error e :=
  get_display_name_unrecognized_axis "Test" "rhel8" "topology" "standalone"
    [("topology", "standalone")] (by decide) (by decide) (by decide) (by decide)

/-- C10: `create_variant` never mutates the caller-supplied expansions dict:
in the heap model, after any successful call the dict object the caller
passed in holds exactly the same pairs as before (all writes go to the
freshly allocated `.copy()`). -/
theorem create_variant_heap_frame (h0 : DictHeap) (task_names : List String)
    (display_name : String) (python version host : Option String) (expRef : Nat)
    (bt : Option Nat) (tg : Option (List String)) (href : expRef < h0.next)
    (v : BuildVariant) (hfin : DictHeap)
    (hok : create_variant_heap h0 task_names display_name python version host expRef bt tg =
      Except.ok (v, hfin)) :
    hfin.store expRef = h0.store expRef := by
  have hne : expRef ≠ h0.next := Nat.ne_of_lt href
  simp only [create_variant_heap] at hok
  cases hhost : hostsFind (resolveHostId host) with
  | none => rw [hhost] at hok; cases hok
  | some hostRec =>
    rw [hhost] at hok
    cases hp : pythonStepHeap (heapAlloc h0 (h0.store expRef)).2 (heapAlloc h0 (h0.store expRef)).1
        python (resolveHostId host) with
    | error err => rw [hp] at hok; cases hok
    | ok h2 =>
      rw [hp] at hok
      simp only [Except.bind] at hok
      cases hok
      rw [heapWrite_store_ne _ _ _ _ (by simpa [heapAlloc] using hne),
        versionStepHeap_store_ne _ _ _ _ (by simpa [heapAlloc] using hne),
        pythonStepHeap_store_ne _ _ _ _ _ hp _ (by simpa [heapAlloc] using hne)]
      simp [heapAlloc, hne]

/-- C10 (witness): a concrete heap with the caller's dict at reference 0; the
call succeeds and reference 0 still holds the original pairs. -/
theorem create_variant_heap_frame_witness :
    ∃ pr, create_variant_heap
        ⟨fun r => if r = 0 then [("SKIP_CSOT_TESTS", "false")] else [], 1⟩
        ["t"] "Test macOS" (some "3.9") (some "8.0") (some "macos") 0 none none =
        Except.ok pr ∧
      pr.2.store 0 = [("SKIP_CSOT_TESTS", "false")] := by
  refine ⟨_, rfl, ?_⟩
  exact create_variant_heap_frame
    ⟨fun r => if r = 0 then [("SKIP_CSOT_TESTS", "false")] else [], 1⟩
    ["t"] "Test macOS" (some "3.9") (some "8.0") (some "macos") 0 none none
    (by decide) _ _ rfl

end GenerateConfig
